import Mathlib

/-!
Shallow embedding of the sciunit judging engine: the score hierarchy,
the test judging protocol, converters, and suite/matrix aggregation.
The Python package itself is not present in the repository snapshot
(only documentation, tutorials and Docker files are), so every
definition below is modelled from the specification and from the
behavior exhibited in the tutorial documents.
-/

set_option autoImplicit false

/-- Modelled from the spec: an observation is test-defined structured
data; the tutorial examples all use dictionaries with numeric entries
(for example a value, a mean and a standard deviation, or a min and a
max), so we model an observation as an association list from string
keys to rational numbers. -/
abbrev Observation := List (String × ℚ)

/-- Modelled from the spec: scores are a closed family of variants
(complete: Boolean, Z, Ratio, CohenD, Percent, Float; incomplete:
None, TBD, NA, InsufficientData), each carrying its payload.  The
spec's design notes themselves prescribe representing the hierarchy as
a closed tagged variant. -/
inductive Score where
  | BooleanScore (b : Bool)
  | ZScore (z : ℚ)
  | CohenDScore (d : ℚ)
  | RatioScore (r : ℚ)
  | PercentScore (p : ℚ)
  | FloatScore (f : ℚ)
  | NoneScore (msg : String)
  | TBDScore
  | NAScore (msg : String)
  | InsufficientDataScore (msg : String)
  deriving DecidableEq

/-- The runtime type (tag) of a score, used for the score-type
contract check in `judge` and for converter source-type checks. -/
inductive ScoreTag where
  | boolean
  | z
  | cohenD
  | ratio
  | percent
  | float
  | noneTag
  | tbd
  | na
  | insufficientData
  deriving DecidableEq

/-- The tag of each score variant. -/
def Score.tag : Score → ScoreTag
  | .BooleanScore _ => .boolean
  | .ZScore _ => .z
  | .CohenDScore _ => .cohenD
  | .RatioScore _ => .ratio
  | .PercentScore _ => .percent
  | .FloatScore _ => .float
  | .NoneScore _ => .noneTag
  | .TBDScore => .tbd
  | .NAScore _ => .na
  | .InsufficientDataScore _ => .insufficientData

/-- Modelled from the spec: complete scores carry a comparison result;
incomplete scores (None, TBD, NA, InsufficientData) record why
judgment could not complete. -/
def Score.isComplete : Score → Bool
  | .BooleanScore _ => true
  | .ZScore _ => true
  | .CohenDScore _ => true
  | .RatioScore _ => true
  | .PercentScore _ => true
  | .FloatScore _ => true
  | .NoneScore _ => false
  | .TBDScore => false
  | .NAScore _ => false
  | .InsufficientDataScore _ => false

/-- A single apostrophe character, used by display strings. -/
def squote : String := String.singleton (Char.ofNat 39)

/-- Modelled from the spec: every score exposes a short display string
(for example Pass or Fail for a Boolean score, or a Z value). -/
def Score.display : Score → String
  | .BooleanScore b => if b then "Pass" else "Fail"
  | .ZScore z => "Z = " ++ toString z
  | .CohenDScore d => "D = " ++ toString d
  | .RatioScore r => "Ratio = " ++ toString r
  | .PercentScore p => toString p ++ " percent"
  | .FloatScore f => toString f
  | .NoneScore _ => "None"
  | .TBDScore => "TBD"
  | .NAScore _ => "N/A"
  | .InsufficientDataScore _ => "Insufficient Data"

/-- Modelled from the spec: the error taxonomy of the engine.
Observation errors are raised at construction; capability errors are
raised only for ad-hoc judging outside batch context; invalid-score
errors (contract violations) are always raised; prediction errors are
recovered into incomplete scores. -/
inductive SUError where
  | ObservationError (msg : String)
  | CapabilityError (modelName capName : String)
  | PredictionError (msg : String)
  | InvalidScoreError (msg : String)
  deriving DecidableEq

deriving instance DecidableEq for Except

/-- Modelled from the spec: a model is identified by name, owns a set
of declared capabilities (the design notes prescribe an explicit
declared set with a membership test), and exposes its capability
method for producing a number, which either yields a value or fails
with a prediction-time error message. -/
structure Model where
  name : String
  capabilities : List String
  produce_number : Except String ℚ
  deriving DecidableEq

/-- Modelled from the spec: a test class is identified by name and
declares its required capabilities, its score type, and the three
overridable hooks validate_observation, generate_prediction and
compute_score. -/
structure TestSpec where
  name : String
  required_capabilities : List String
  score_type : ScoreTag
  validate_observation : Observation → Except String Unit
  generate_prediction : Model → Except String ℚ
  compute_score : Observation → ℚ → Score

/-- Modelled from the spec: a constructed Test instance couples a test
class with the observation it was constructed with; the observation is
fixed at construction. -/
structure Test where
  spec : TestSpec
  observation : Observation

/-- Name of a constructed test. -/
def Test.name (t : Test) : String := t.spec.name

/-- Modelled from the spec: Test construction validates the
observation exactly once; on failure an ObservationError is raised
synchronously by the constructor and no Test instance is produced.
The second component is the trace of hook invocations performed. -/
def mkTestT (spec : TestSpec) (obs : Observation) :
    Except SUError Test × List String :=
  match spec.validate_observation obs with
  | .error msg => (.error (.ObservationError msg), ["validate_observation"])
  | .ok _ => (.ok { spec := spec, observation := obs }, ["validate_observation"])

/-- Test construction (result only, trace dropped). -/
def mkTest (spec : TestSpec) (obs : Observation) : Except SUError Test :=
  (mkTestT spec obs).1

/-- Modelled from the spec: capability checking is a structural
membership test of every required capability against the model's
declared set; it returns the first unmet capability, if any. -/
def check_required (m : Model) : List String → Option String
  | [] => none
  | c :: cs => if c ∈ m.capabilities then check_required m cs else some c

/-- Modelled from the spec: a Score, once produced, is bound to
exactly one (test, model) pair together with the prediction and
observation used, forming its provenance. -/
structure BoundScore where
  score : Score
  testName : String
  modelName : String
  observation : Observation
  prediction : Option ℚ
  deriving DecidableEq

/-- Attach provenance to a score (the SCORED to BOUND transition). -/
def Test.bind (t : Test) (m : Model) (s : Score) (pred : Option ℚ) :
    BoundScore :=
  { score := s, testName := t.name, modelName := m.name,
    observation := t.observation, prediction := pred }

/-- Modelled from the spec: the judging protocol for one (test, model)
pair, instrumented with the trace of hook invocations.  The `batch`
flag tells whether the call is part of batch judging: a missing
capability is converted into an NAScore during batch judging and
raised as a CapabilityError only for ad-hoc calls; a prediction-time
failure is recovered into an InsufficientDataScore; a compute_score
result whose runtime type differs from the declared score_type always
raises InvalidScoreError. -/
def Test.judgeT (t : Test) (m : Model) (batch : Bool) :
    Except SUError BoundScore × List String :=
  match check_required m t.spec.required_capabilities with
  | some cap =>
      (if batch then
        .ok (t.bind m
          (.NAScore ("Model " ++ m.name ++ " lacks capability " ++ cap)) none)
       else .error (.CapabilityError m.name cap),
       ["check_required"])
  | none =>
      match t.spec.generate_prediction m with
      | .error msg =>
          (.ok (t.bind m (.InsufficientDataScore msg) none),
           ["check_required", "generate_prediction"])
      | .ok pred =>
          let s := t.spec.compute_score t.observation pred
          (if s.tag = t.spec.score_type then .ok (t.bind m s (some pred))
           else .error (.InvalidScoreError
             ("Score type " ++ t.name ++ " mismatch")),
           ["check_required", "generate_prediction", "compute_score"])

/-- The judging protocol (result only, trace dropped). -/
def Test.judge (t : Test) (m : Model) (batch : Bool) :
    Except SUError BoundScore :=
  (t.judgeT m batch).1

/-- Modelled from the spec: `summarize` produces the one-line
provenance statement naming the model, the score display string and
the test. -/
def BoundScore.summarize (b : BoundScore) : String :=
  "Model " ++ b.modelName ++ " achieved score " ++ b.score.display ++
    " on test " ++ squote ++ b.testName ++ squote ++ "."

/-- Modelled from the spec: a Converter is a stateless transformation
with a declared source score type and target score type. -/
structure Converter where
  source : ScoreTag
  target : ScoreTag
  transform : Score → Score

/-- Modelled from the spec: `convert` applies the transformation and
fails with InvalidScoreError whenever the runtime type of its input
does not match the declared source type. -/
def Converter.convert (c : Converter) (s : Score) : Except SUError Score :=
  if s.tag = c.source then .ok (c.transform s)
  else .error (.InvalidScoreError "Converter received the wrong source type")

/-- Modelled from the spec: the canonical range-to-boolean converter
maps a ratio score into a Boolean score by testing membership in an
inclusive interval. -/
def RangeToBoolean (lo hi : ℚ) : Converter :=
  { source := .ratio, target := .boolean,
    transform := fun s =>
      match s with
      | .RatioScore r => .BooleanScore (decide (lo ≤ r ∧ r ≤ hi))
      | other => other }

/-- Modelled from the spec: a TestSuite is an ordered sequence of
tests (insertion order significant for display). -/
structure TestSuite where
  name : String
  tests : List Test

/-- Modelled from the spec: the argument of `TestSuite.judge` may be a
single model or a list of models (the tutorial judges both
`suite.judge(model)` and `suite.judge([m1, m2, m3])`). -/
inductive ModelsArg where
  | one (m : Model)
  | many (ms : List Model)

/-- A single model argument is wrapped into a one-element list. -/
def ModelsArg.toList : ModelsArg → List Model
  | .one m => [m]
  | .many ms => ms

/-- Modelled from the spec: batch judging computes the full cross
product of (test, model) pairs, judging each pair independently, in
model-major order (the tutorial prints the scores for all tests of the
first model, then all tests of the second model, and so on).  Each
entry records the test name, the model name and that pair's own judge
outcome. -/
def suitePairs (tests : List Test) (models : List Model) :
    List (String × String × Except SUError BoundScore) :=
  models.flatMap (fun m => tests.map (fun t => (t.name, m.name, t.judge m true)))

/-- Collect the per-pair outcomes: the first contract violation (a
raised error) propagates; otherwise all bound scores are collected. -/
def collectEntries :
    List (String × String × Except SUError BoundScore) →
    Except SUError (List (String × String × BoundScore))
  | [] => .ok []
  | (tn, mn, .ok b) :: rest =>
      (collectEntries rest).map (fun es => (tn, mn, b) :: es)
  | (_, _, .error e) :: _ => .error e

/-- Modelled from the spec: a ScoreMatrix is the collection of bound
scores keyed by (test, model), derived entirely from
`TestSuite.judge(models)`. -/
structure ScoreMatrix where
  entries : List (String × String × BoundScore)
  deriving DecidableEq

/-- Lookup by test: the slice of entries produced by one test, in
stored (model-insertion) order. -/
def ScoreMatrix.byTest (M : ScoreMatrix) (t : Test) :
    List (String × String × BoundScore) :=
  M.entries.filter (fun e => e.1 = t.name)

/-- Lookup by model: the slice of entries for one model, in stored
(test-insertion) order. -/
def ScoreMatrix.byModel (M : ScoreMatrix) (m : Model) :
    List (String × String × BoundScore) :=
  M.entries.filter (fun e => e.2.1 = m.name)

/-- Modelled from the spec: `TestSuite.judge` judges the cross product
of the suite's tests with the given model or models and assembles the
outcomes into a ScoreMatrix; a contract violation is surfaced to the
caller, data-dependent failures having already been recovered into
incomplete scores pairwise. -/
def TestSuite.judge (suite : TestSuite) (arg : ModelsArg) :
    Except SUError ScoreMatrix :=
  (collectEntries (suitePairs suite.tests arg.toList)).map
    (fun es => { entries := es })

/-- Modelled from the spec: `ZScore.compute(observation, prediction)`
is the static constructor of the Z score type.  The tutorial judges a
model producing 37 against the observation with mean 37.8 and standard
deviation 2.1 and reports `Z = -0.38`, so the standardized value is
(prediction - mean) / std; with both entries missing nothing can be
computed and an insufficient-data score results. -/
def ZScore.compute (obs : Observation) (pred : ℚ) : Score :=
  match List.lookup "mean" obs, List.lookup "std" obs with
  | some mean, some std => .ZScore ((pred - mean) / std)
  | _, _ =>
      .InsufficientDataScore "Observation must contain mean and std entries"

/-- The rank of a score for sorting: incomplete scores compare as the
lowest rank, below every complete score. -/
def Score.sortRank (s : Score) : Nat := if s.isComplete then 1 else 0

/-- Modelled from the spec: each complete score type defines a
normalized sortable value used for cross-score-type ranking (the exact
normalization of each statistic is not fixed by the spec; each is a
value in the unit interval, monotone in the goodness of the score, and
incomplete scores carry none and are given 0 here). -/
def Score.norm_score : Score → ℚ
  | .BooleanScore b => if b then 1 else 0
  | .ZScore z => 1 / (1 + z ^ 2)
  | .CohenDScore d => 1 / (1 + d ^ 2)
  | .RatioScore r => if r ≤ 1 then r else 1 / r
  | .PercentScore p => p / 100
  | .FloatScore f => f
  | .NoneScore _ => 0
  | .TBDScore => 0
  | .NAScore _ => 0
  | .InsufficientDataScore _ => 0

/-- Modelled from the spec: the sorting order over all scores,
complete and incomplete: first by rank (incomplete lowest), then by
normalized value. -/
def Score.sortLe (a b : Score) : Prop :=
  a.sortRank < b.sortRank ∨ (a.sortRank = b.sortRank ∧ a.norm_score ≤ b.norm_score)

instance (a b : Score) : Decidable (a.sortLe b) := by
  unfold Score.sortLe
  infer_instance

/-- Strict version of the score sorting order. -/
def Score.sortLt (a b : Score) : Prop := a.sortLe b ∧ ¬ b.sortLe a

instance (a b : Score) : Decidable (a.sortLt b) := by
  unfold Score.sortLt
  infer_instance

/-- The ProducesNumber capability of the tutorial, identified by name. -/
def ProducesNumber : String := "ProducesNumber"

/-- The tutorial's ConstModel: a model that always produces a constant
number as output, declaring the ProducesNumber capability. -/
def ConstModel (c : ℚ) (name : String) : Model :=
  { name := name, capabilities := [ProducesNumber], produce_number := .ok c }

/-- The tutorial's EqualsTest class: requires ProducesNumber, returns
a BooleanScore, predicts the model's produced number, and scores
whether the observation's value entry equals the prediction. -/
def EqualsTest (name : String) : TestSpec :=
  { name := name,
    required_capabilities := [ProducesNumber],
    score_type := .boolean,
    validate_observation := fun _ => .ok (),
    generate_prediction := fun m => m.produce_number,
    compute_score := fun obs pred =>
      .BooleanScore (decide (List.lookup "value" obs = some pred)) }

/-- The tutorial's MeanTest class: requires ProducesNumber, returns a
ZScore, rejects observations lacking a mean entry. -/
def MeanTest (name : String) : TestSpec :=
  { name := name,
    required_capabilities := [ProducesNumber],
    score_type := .z,
    validate_observation := fun obs =>
      match List.lookup "mean" obs with
      | some _ => .ok ()
      | none => .error "Observation must contain a mean entry",
    generate_prediction := fun m => m.produce_number,
    compute_score := fun obs pred => ZScore.compute obs pred }

/-- The tutorial's constant model producing 37. -/
def const_model_37 : Model := ConstModel 37 "Constant Model 37"

/-- A constant model producing 36. -/
def const_model_36 : Model := ConstModel 36 "Constant Model 36"

/-- A constant model producing 35. -/
def const_model_35 : Model := ConstModel 35 "Constant Model 35"

/-- The tutorial's test instance expecting the value 37. -/
def equals_37_test : Test :=
  { spec := EqualsTest "Equal 37 Test", observation := [("value", 37)] }

/-- The tutorial's test instance expecting the value 36. -/
def equals_36_test : Test :=
  { spec := EqualsTest "Equal 36 Test", observation := [("value", 36)] }

/-- The tutorial's test instance expecting the value 35. -/
def equals_35_test : Test :=
  { spec := EqualsTest "Equal 35 Test", observation := [("value", 35)] }

/-- C4: a Boolean-equality test constructed with observation
value 37, judged against a constant-producing model emitting 37,
yields a Pass (BooleanScore true); against a model emitting 36 it
yields a Fail (BooleanScore false). -/
theorem c4_boolean_equality_scenario :
    mkTest (EqualsTest "Equal 37 Test") [("value", 37)] = .ok equals_37_test ∧
    (equals_37_test.judge const_model_37 false).map BoundScore.score
      = .ok (.BooleanScore true) ∧
    (equals_37_test.judge const_model_36 false).map BoundScore.score
      = .ok (.BooleanScore false) ∧
    Score.display (.BooleanScore true) = "Pass" ∧
    Score.display (.BooleanScore false) = "Fail" := by
  refine ⟨rfl, ?_, ?_, rfl, rfl⟩ <;> rfl

/-- C6 counterexample: the claimed formula (mean - prediction) / std
evaluates to 8/21 at the cited observation (mean 37.8, std 2.1) and
prediction 37, while `ZScore.compute` reports -8/21, the value that
rounds to the documented -0.38: the claimed formula and the claimed
reported value contradict each other. -/
theorem c6_counterexample :
    ZScore.compute [("mean", 37.8), ("std", 2.1)] 37 = .ZScore (-8 / 21) ∧
    ((37.8 : ℚ) - 37) / 2.1 = 8 / 21 ∧
    ((8 : ℚ) / 21) ≠ ((-8 : ℚ) / 21) := by
  have h : ZScore.compute [("mean", 37.8), ("std", 2.1)] 37
      = .ZScore ((37 - 37.8) / 2.1) := rfl
  refine ⟨?_, by norm_num, by norm_num⟩
  rw [h, Score.ZScore.injEq]
  norm_num

/-- C6 (amended): `ZScore.compute(observation, prediction)` implements
the standardized value (prediction - mean_obs) / std_obs; for the
observation with mean 37.8 and std 2.1 and the prediction 37 it yields
(37 - 37.8) / 2.1 = -8/21, which is approximately -0.38 as reported. -/
theorem c6_zscore_formula :
    (∀ (obs : Observation) (pred mean std : ℚ),
      List.lookup "mean" obs = some mean →
      List.lookup "std" obs = some std →
      ZScore.compute obs pred = .ZScore ((pred - mean) / std)) ∧
    ZScore.compute [("mean", 37.8), ("std", 2.1)] 37
      = .ZScore ((37 - 37.8) / 2.1) ∧
    ((37 : ℚ) - 37.8) / 2.1 = -8 / 21 ∧
    |(-8 / 21 : ℚ) - (-38 / 100)| < 1 / 100 := by
  refine ⟨?_, rfl, by norm_num, by rw [abs_sub_lt_iff]; norm_num⟩
  intro obs pred mean std h1 h2
  unfold ZScore.compute
  rw [h1, h2]

/-- C6 witness: the formula hypothesis discharged at the concrete
tutorial observation. -/
theorem c6_zscore_formula_witness :
    ZScore.compute [("mean", 37.8), ("std", 2.1)] 5
      = .ZScore ((5 - 37.8) / 2.1) :=
  c6_zscore_formula.1 [("mean", 37.8), ("std", 2.1)] 5 37.8 2.1 rfl rfl

/-- C7: a range-to-boolean converter with inclusive interval from lo
to hi maps a ratio score lying exactly at either boundary to a passing
Boolean score. -/
theorem c7_range_boundary_inclusive (lo hi : ℚ) (h : lo ≤ hi) :
    (RangeToBoolean lo hi).convert (.RatioScore lo) = .ok (.BooleanScore true) ∧
    (RangeToBoolean lo hi).convert (.RatioScore hi) = .ok (.BooleanScore true) := by
  constructor <;>
    simp [RangeToBoolean, Converter.convert, Score.tag, h, le_refl]

/-- C7 witness: the canonical interval from 0.97 to 1.03 passes at
both boundaries. -/
theorem c7_range_boundary_inclusive_witness :
    (RangeToBoolean (97 / 100) (103 / 100)).convert (.RatioScore (97 / 100))
        = .ok (.BooleanScore true) ∧
    (RangeToBoolean (97 / 100) (103 / 100)).convert (.RatioScore (103 / 100))
        = .ok (.BooleanScore true) :=
  c7_range_boundary_inclusive (97 / 100) (103 / 100) (by norm_num)

/-- An incomplete score has rank 0. -/
theorem sortRank_incomplete {s : Score} (h : s.isComplete = false) :
    s.sortRank = 0 := by
  unfold Score.sortRank
  rw [h]
  rfl

/-- A complete score has rank 1. -/
theorem sortRank_complete {s : Score} (h : s.isComplete = true) :
    s.sortRank = 1 := by
  unfold Score.sortRank
  rw [h]
  rfl

/-- C8: the score ordering is total over all Score values (every two
scores are comparable), reflexive and transitive, and every incomplete
score compares strictly below every complete score, so sorting a mixed
collection of complete and incomplete scores is always defined. -/
theorem c8_total_order :
    (∀ a b : Score, a.sortLe b ∨ b.sortLe a) ∧
    (∀ a : Score, a.sortLe a) ∧
    (∀ a b c : Score, a.sortLe b → b.sortLe c → a.sortLe c) ∧
    (∀ i c : Score, i.isComplete = false → c.isComplete = true →
      i.sortLt c) := by
  refine ⟨?_, ?_, ?_, ?_⟩
  · intro a b
    rcases Nat.lt_trichotomy a.sortRank b.sortRank with h | h | h
    · exact Or.inl (Or.inl h)
    · rcases le_total a.norm_score b.norm_score with h2 | h2
      · exact Or.inl (Or.inr ⟨h, h2⟩)
      · exact Or.inr (Or.inr ⟨h.symm, h2⟩)
    · exact Or.inr (Or.inl h)
  · intro a
    exact Or.inr ⟨rfl, le_refl _⟩
  · intro a b c hab hbc
    rcases hab with h1 | ⟨h1, h1n⟩
    · rcases hbc with h2 | ⟨h2, _⟩
      · exact Or.inl (h1.trans h2)
      · exact Or.inl (h2 ▸ h1)
    · rcases hbc with h2 | ⟨h2, h2n⟩
      · exact Or.inl (h1 ▸ h2)
      · exact Or.inr ⟨h1.trans h2, h1n.trans h2n⟩
  · intro i c hi hc
    have hri : i.sortRank = 0 := sortRank_incomplete hi
    have hrc : c.sortRank = 1 := sortRank_complete hc
    constructor
    · exact Or.inl (by rw [hri, hrc]; exact Nat.zero_lt_one)
    · intro hcon
      rcases hcon with h | ⟨h, _⟩
      · rw [hri, hrc] at h
        exact Nat.not_lt_zero 1 h
      · rw [hri, hrc] at h
        exact Nat.one_ne_zero h

/-- C8 witness: the transitivity and strict-below parts discharged at
concrete scores; an NA score sorts strictly below a failing Boolean
score, and the order chains through a Z score. -/
theorem c8_total_order_witness :
    (Score.NAScore "missing").sortLt (.BooleanScore false) ∧
    (Score.TBDScore).sortLe (.BooleanScore true) := by
  constructor
  · exact c8_total_order.2.2.2 (.NAScore "missing") (.BooleanScore false) rfl rfl
  · exact c8_total_order.2.2.1 .TBDScore (.ZScore 0) (.BooleanScore true)
      (c8_total_order.2.2.2 .TBDScore (.ZScore 0) rfl rfl).1
      (Or.inr ⟨rfl, by norm_num [Score.norm_score]⟩)

/-- Every judge outcome that returns a bound score binds it to the
judged test and model (the SCORED to BOUND transition). -/
theorem judge_ok_binds (t : Test) (m : Model) (batch : Bool)
    (b : BoundScore) (h : t.judge m batch = .ok b) :
    b.testName = t.name ∧ b.modelName = m.name := by
  unfold Test.judge Test.judgeT at h
  rcases hc : check_required m t.spec.required_capabilities with _ | cap
  · rw [hc] at h
    rcases hp : t.spec.generate_prediction m with msg | pred
    · rw [hp] at h
      simp only at h
      cases h
      exact ⟨rfl, rfl⟩
    · rw [hp] at h
      simp only at h
      split at h
      · cases h
        exact ⟨rfl, rfl⟩
      · cases h
  · rw [hc] at h
    simp only at h
    split at h
    · cases h
      exact ⟨rfl, rfl⟩
    · cases h

/-- C9: every bound score that `judge` returns summarizes to the
one-line provenance statement naming the judged model, the score
display string and the judged test. -/
theorem c9_summarize_provenance (t : Test) (m : Model) (batch : Bool)
    (b : BoundScore) (h : t.judge m batch = .ok b) :
    b.summarize = "Model " ++ m.name ++ " achieved score " ++
      b.score.display ++ " on test " ++ squote ++ t.name ++ squote ++ "." := by
  obtain ⟨h1, h2⟩ := judge_ok_binds t m batch b h
  unfold BoundScore.summarize
  rw [h1, h2]

/-- The bound score of the tutorial judgment of the constant model 37
by the Equal 37 test. -/
def score_37 : BoundScore :=
  equals_37_test.bind const_model_37 (.BooleanScore true) (some 37)

/-- C9 witness: the provenance statement for the tutorial judgment. -/
theorem c9_summarize_provenance_witness :
    score_37.summarize = "Model " ++ const_model_37.name ++
      " achieved score " ++ score_37.score.display ++ " on test " ++
      squote ++ equals_37_test.name ++ squote ++ "." :=
  c9_summarize_provenance equals_37_test const_model_37 false score_37 rfl

/-- C5: validate_observation runs exactly once, at Test construction:
the construction trace invokes it once, no judge trace ever invokes
it, a failing validation surfaces synchronously as an ObservationError
from the constructor, and every Test instance the constructor does
produce carries an observation that validated successfully. -/
theorem c5_validate_once (spec : TestSpec) (obs : Observation) :
    ((mkTestT spec obs).2.count "validate_observation" = 1) ∧
    (∀ (t : Test) (m : Model) (batch : Bool),
      (t.judgeT m batch).2.count "validate_observation" = 0) ∧
    (∀ msg, spec.validate_observation obs = .error msg →
      mkTest spec obs = .error (.ObservationError msg)) ∧
    (∀ t, mkTest spec obs = .ok t →
      spec.validate_observation obs = .ok () ∧ t.observation = obs) := by
  refine ⟨?_, ?_, ?_, ?_⟩
  · unfold mkTestT
    rcases spec.validate_observation obs with msg | u
    · rfl
    · rfl
  · intro t m batch
    unfold Test.judgeT
    rcases check_required m t.spec.required_capabilities with _ | cap
    · rcases t.spec.generate_prediction m with msg | pred
      · rfl
      · rfl
    · rfl
  · intro msg h
    unfold mkTest mkTestT
    rw [h]
  · intro t h
    unfold mkTest mkTestT at h
    rcases hv : spec.validate_observation obs with msg | u
    · rw [hv] at h
      cases h
    · rw [hv] at h
      simp only at h
      cases h
      exact ⟨rfl, rfl⟩

/-- The MeanTest instance of the tutorial, built on the observation
with mean 37.8 and std 2.1. -/
def mean_37_test : Test :=
  { spec := MeanTest "Equal 37 Test",
    observation := [("mean", 37.8), ("std", 2.1)] }

/-- C5 witness: for the tutorial MeanTest, construction on an
observation lacking the mean entry invokes validation once and raises
ObservationError, and a batch judgment never invokes validation. -/
theorem c5_validate_once_witness :
    ((mkTestT (MeanTest "Equal 37 Test") [("std", 2.1)]).2.count
        "validate_observation" = 1) ∧
    mkTest (MeanTest "Equal 37 Test") [("std", 2.1)]
      = .error (.ObservationError "Observation must contain a mean entry") ∧
    ((mean_37_test.judgeT const_model_37 true).2.count
        "validate_observation" = 0) := by
  have h := c5_validate_once (MeanTest "Equal 37 Test") [("std", 2.1)]
  exact ⟨h.1, h.2.2.1 "Observation must contain a mean entry" rfl,
    h.2.1 mean_37_test const_model_37 true⟩

/-- C2: a model lacking a required capability is judged during batch
judging to an NAScore naming the missing capability, returned as an
ordinary outcome rather than a raised exception; and every sibling
(test, model) pair of a batch carries exactly its own standalone judge
outcome, so one pair's deficiency never affects another pair. -/
theorem c2_capability_to_nascore (t : Test) (m : Model) (cap : String)
    (h : check_required m t.spec.required_capabilities = some cap) :
    (t.judge m true = .ok (t.bind m
      (.NAScore ("Model " ++ m.name ++ " lacks capability " ++ cap)) none)) ∧
    ((Score.NAScore ("Model " ++ m.name ++ " lacks capability " ++ cap)).isComplete
      = false) ∧
    (∀ (tests : List Test) (models : List Model) (t0 : Test) (m0 : Model),
      t0 ∈ tests → m0 ∈ models →
      (t0.name, m0.name, t0.judge m0 true) ∈ suitePairs tests models) := by
  refine ⟨?_, rfl, ?_⟩
  · unfold Test.judge Test.judgeT
    rw [h]
    rfl
  · intro tests models t0 m0 ht hm
    unfold suitePairs
    exact List.mem_flatMap.mpr
      ⟨m0, hm, List.mem_map.mpr ⟨t0, ht, rfl⟩⟩

/-- A model declaring no capabilities at all. -/
def no_cap_model : Model :=
  { name := "NoCap", capabilities := [], produce_number := .ok 0 }

/-- C2 witness: judging the capability-free model with the tutorial
equality test in batch mode yields the NAScore outcome, and the pair
appears as its own outcome inside a batch with a sibling model. -/
theorem c2_capability_to_nascore_witness :
    (equals_37_test.judge no_cap_model true = .ok (equals_37_test.bind
      no_cap_model (.NAScore ("Model " ++ no_cap_model.name ++
        " lacks capability " ++ ProducesNumber)) none)) ∧
    ((equals_37_test.name, no_cap_model.name,
        equals_37_test.judge no_cap_model true)
      ∈ suitePairs [equals_37_test] [const_model_37, no_cap_model]) := by
  have h := c2_capability_to_nascore equals_37_test no_cap_model
    ProducesNumber rfl
  exact ⟨h.1, h.2.2 [equals_37_test] [const_model_37, no_cap_model]
    equals_37_test no_cap_model (List.Mem.head _)
    (List.Mem.tail _ (List.Mem.head _))⟩

/-- C3: when compute_score returns a score whose runtime type differs
from the declared score_type, judge raises InvalidScoreError (in batch
and ad-hoc context alike, never converting it into an incomplete
score); and a converter given a score whose runtime type differs from
its declared source type fails with InvalidScoreError. -/
theorem c3_invalid_score_error (t : Test) (m : Model) (pred : ℚ)
    (batch : Bool)
    (h1 : check_required m t.spec.required_capabilities = none)
    (h2 : t.spec.generate_prediction m = .ok pred)
    (h3 : (t.spec.compute_score t.observation pred).tag ≠ t.spec.score_type) :
    (t.judge m batch
      = .error (.InvalidScoreError ("Score type " ++ t.name ++ " mismatch"))) ∧
    (∀ (c : Converter) (s : Score), s.tag ≠ c.source →
      c.convert s = .error
        (.InvalidScoreError "Converter received the wrong source type")) := by
  constructor
  · unfold Test.judge Test.judgeT
    rw [h1, h2]
    simp only
    rw [if_neg h3]
  · intro c s hs
    unfold Converter.convert
    rw [if_neg hs]

/-- A test class whose compute_score violates the score-type contract:
it declares score_type Z but returns a Boolean score. -/
def BadScoreTypeTest : TestSpec :=
  { name := "Bad Score Type Test",
    required_capabilities := [ProducesNumber],
    score_type := .z,
    validate_observation := fun _ => .ok (),
    generate_prediction := fun m => m.produce_number,
    compute_score := fun _ _ => .BooleanScore true }

/-- A contract-violating test instance. -/
def bad_test : Test := { spec := BadScoreTypeTest, observation := [] }

/-- C3 witness: the contract-violating test raises InvalidScoreError
even in batch mode, and the range converter rejects a Boolean input. -/
theorem c3_invalid_score_error_witness :
    (bad_test.judge const_model_37 true
      = .error (.InvalidScoreError
          ("Score type " ++ bad_test.name ++ " mismatch"))) ∧
    ((RangeToBoolean (97 / 100) (103 / 100)).convert (.BooleanScore true)
      = .error
          (.InvalidScoreError "Converter received the wrong source type")) := by
  have h := c3_invalid_score_error bad_test const_model_37 37 true rfl rfl
    (by decide)
  exact ⟨h.1, h.2 (RangeToBoolean (97 / 100) (103 / 100))
    (.BooleanScore true) (by decide)⟩

/-- Wrap a collected entry back into its pair-outcome form. -/
def okEntry (e : String × String × BoundScore) :
    String × String × Except SUError BoundScore :=
  (e.1, e.2.1, .ok e.2.2)

/-- When collecting succeeds, the outcome list was exactly the
collected entries, each wrapped as a success. -/
theorem collectEntries_ok
    (L : List (String × String × Except SUError BoundScore))
    (es : List (String × String × BoundScore))
    (h : collectEntries L = .ok es) : L = es.map okEntry := by
  induction L generalizing es with
  | nil =>
    unfold collectEntries at h
    cases h
    rfl
  | cons hd tl ih =>
    obtain ⟨tn, mn, r⟩ := hd
    cases r with
    | ok b =>
      unfold collectEntries at h
      cases hrec : collectEntries tl with
      | error e =>
        rw [hrec] at h
        cases h
      | ok es0 =>
        rw [hrec] at h
        simp only [Except.map] at h
        cases h
        rw [ih es0 hrec]
        rfl
    | error e =>
      unfold collectEntries at h
      cases h

/-- The cross product has one entry per (test, model) pair. -/
theorem suitePairs_length (tests : List Test) (models : List Model) :
    (suitePairs tests models).length = tests.length * models.length := by
  unfold suitePairs
  induction models with
  | nil => simp
  | cons m ms ih =>
    simp only [List.flatMap_cons, List.length_append, List.length_map, ih,
      List.length_cons, Nat.mul_succ]
    exact Nat.add_comm _ _

/-- Filtering one model's block of the cross product by a test name
that occurs once among the tests keeps exactly that test's entry. -/
theorem block_filter_byTest (m : Model) (tests : List Test) (t0 : Test)
    (hnd : (tests.map Test.name).Nodup) (ht : t0 ∈ tests) :
    (tests.map (fun t => (t.name, m.name, t.judge m true))).filter
        (fun e => e.1 = t0.name)
      = [(t0.name, m.name, t0.judge m true)] := by
  induction tests with
  | nil => cases ht
  | cons hd tl ih =>
    rw [List.map_cons] at hnd
    obtain ⟨hnotin, hnd2⟩ := List.nodup_cons.mp hnd
    rcases List.mem_cons.mp ht with rfl | htl
    · simp only [List.map_cons, List.filter_cons, decide_True]
      have hrest : (tl.map (fun t => (t.name, m.name, t.judge m true))).filter
          (fun e => e.1 = t0.name) = [] := by
        rw [List.filter_eq_nil_iff]
        intro e he
        obtain ⟨t, htmem, rfl⟩ := List.mem_map.mp he
        simp only [decide_eq_true_eq]
        intro hcon
        exact hnotin (hcon ▸ List.mem_map_of_mem Test.name htmem)
      rw [hrest, if_pos trivial]
    · have hne : hd.name ≠ t0.name := by
        intro hcon
        exact hnotin (hcon ▸ List.mem_map_of_mem Test.name htl)
      simp only [List.map_cons, List.filter_cons, decide_eq_true_eq]
      rw [if_neg hne]
      exact ih hnd2 htl

/-- Filtering the cross product by a test occurring once among the
tests yields that test's entry for every model, in model order. -/
theorem suitePairs_filter_byTest (tests : List Test) (models : List Model)
    (t0 : Test) (hnd : (tests.map Test.name).Nodup) (ht : t0 ∈ tests) :
    (suitePairs tests models).filter (fun e => e.1 = t0.name)
      = models.map (fun m => (t0.name, m.name, t0.judge m true)) := by
  induction models with
  | nil => rfl
  | cons m ms ih =>
    unfold suitePairs
    rw [List.flatMap_cons, List.filter_append,
      block_filter_byTest m tests t0 hnd ht]
    unfold suitePairs at ih
    rw [ih]
    rfl

/-- Every entry of one model's block carries that model's name, so
filtering the block by it keeps the whole block. -/
theorem block_filter_byModel_self (m : Model) (tests : List Test) :
    (tests.map (fun t => (t.name, m.name, t.judge m true))).filter
        (fun e => e.2.1 = m.name)
      = tests.map (fun t => (t.name, m.name, t.judge m true)) := by
  rw [List.filter_eq_self]
  intro e he
  obtain ⟨t, _, rfl⟩ := List.mem_map.mp he
  exact decide_eq_true rfl

/-- Filtering one model's block by a different model name drops the
whole block. -/
theorem block_filter_byModel_other (m : Model) (tests : List Test)
    (n : String) (hne : m.name ≠ n) :
    (tests.map (fun t => (t.name, m.name, t.judge m true))).filter
        (fun e => e.2.1 = n) = [] := by
  rw [List.filter_eq_nil_iff]
  intro e he
  obtain ⟨t, _, rfl⟩ := List.mem_map.mp he
  simp only [decide_eq_true_eq]
  exact hne

/-- Filtering the cross product by a model name absent from the model
list drops everything. -/
theorem suitePairs_filter_absent (tests : List Test) (models : List Model)
    (n : String) (hn : n ∉ models.map Model.name) :
    (suitePairs tests models).filter (fun e => e.2.1 = n) = [] := by
  induction models with
  | nil => rfl
  | cons m ms ih =>
    rw [List.map_cons, List.mem_cons] at hn
    push_neg at hn
    unfold suitePairs
    rw [List.flatMap_cons, List.filter_append,
      block_filter_byModel_other m tests n (fun h => hn.1 h.symm)]
    unfold suitePairs at ih
    rw [ih hn.2]
    rfl

/-- Filtering the cross product by a model occurring once among the
models yields that model's entry for every test, in test order. -/
theorem suitePairs_filter_byModel (tests : List Test) (models : List Model)
    (m0 : Model) (hnd : (models.map Model.name).Nodup) (hm : m0 ∈ models) :
    (suitePairs tests models).filter (fun e => e.2.1 = m0.name)
      = tests.map (fun t => (t.name, m0.name, t.judge m0 true)) := by
  induction models with
  | nil => cases hm
  | cons m ms ih =>
    rw [List.map_cons] at hnd
    obtain ⟨hnotin, hnd2⟩ := List.nodup_cons.mp hnd
    unfold suitePairs
    rw [List.flatMap_cons, List.filter_append]
    rcases List.mem_cons.mp hm with rfl | hms
    · rw [block_filter_byModel_self m0 tests]
      have habsent := suitePairs_filter_absent tests ms m0.name hnotin
      unfold suitePairs at habsent
      rw [habsent, List.append_nil]
    · have hne : m.name ≠ m0.name := by
        intro hcon
        exact hnotin (hcon ▸ List.mem_map_of_mem Model.name hms)
      rw [block_filter_byModel_other m tests m0.name hne, List.nil_append]
      unfold suitePairs at ih
      exact ih hnd2 hms

/-- Filtering the wrapped entries by first component commutes with
unwrapping. -/
theorem filter_map_fst (es : List (String × String × BoundScore))
    (n : String) :
    (es.map okEntry).filter (fun e => e.1 = n)
      = (es.filter (fun e => e.1 = n)).map okEntry := by
  induction es with
  | nil => rfl
  | cons e tl ih =>
    simp only [List.map_cons, List.filter_cons]
    by_cases h : e.1 = n
    · simp only [okEntry, h, decide_True, if_pos trivial, List.map_cons, ih]
    · simp only [okEntry, h, decide_False]
      simpa [okEntry] using ih

/-- Filtering the wrapped entries by model name commutes with
unwrapping. -/
theorem filter_map_snd (es : List (String × String × BoundScore))
    (n : String) :
    (es.map okEntry).filter (fun e => e.2.1 = n)
      = (es.filter (fun e => e.2.1 = n)).map okEntry := by
  induction es with
  | nil => rfl
  | cons e tl ih =>
    simp only [List.map_cons, List.filter_cons]
    by_cases h : e.2.1 = n
    · simp only [okEntry, h, decide_True, if_pos trivial, List.map_cons, ih]
    · simp only [okEntry, h, decide_False]
      simpa [okEntry] using ih

/-- C1: batch judging n tests against m models yields a ScoreMatrix
with exactly n times m entries; lookup by any one test yields exactly
one entry per model, in model-insertion order, and lookup by any one
model yields exactly one entry per test, in test-insertion order. -/
theorem c1_matrix_shape (suite : TestSuite) (models : List Model)
    (M : ScoreMatrix)
    (hndt : (suite.tests.map Test.name).Nodup)
    (hndm : (models.map Model.name).Nodup)
    (h : suite.judge (.many models) = .ok M) :
    M.entries.length = suite.tests.length * models.length ∧
    (∀ t0 ∈ suite.tests,
      (M.byTest t0).length = models.length ∧
      (M.byTest t0).map (fun e => e.2.1) = models.map Model.name) ∧
    (∀ m0 ∈ models,
      (M.byModel m0).length = suite.tests.length ∧
      (M.byModel m0).map (fun e => e.1) = suite.tests.map Test.name) := by
  unfold TestSuite.judge ModelsArg.toList at h
  cases hc : collectEntries (suitePairs suite.tests models) with
  | error e =>
    rw [hc] at h
    simp only [Except.map] at h
    cases h
  | ok es =>
    rw [hc] at h
    simp only [Except.map] at h
    cases h
    have hL := collectEntries_ok _ es hc
    refine ⟨?_, ?_, ?_⟩
    · have h1 := congrArg List.length hL
      rw [suitePairs_length, List.length_map] at h1
      exact h1.symm
    · intro t0 ht0
      have key : (es.filter (fun e => e.1 = t0.name)).map okEntry
          = models.map (fun m => (t0.name, m.name, t0.judge m true)) := by
        rw [← filter_map_fst, ← hL,
          suitePairs_filter_byTest suite.tests models t0 hndt ht0]
      constructor
      · have h2 := congrArg List.length key
        rw [List.length_map, List.length_map] at h2
        exact h2
      · have h3 := congrArg (List.map (fun e =>
          (e.2.1 : String))) key
        rw [List.map_map, List.map_map] at h3
        simpa [Function.comp, okEntry, ScoreMatrix.byTest] using h3
    · intro m0 hm0
      have key : (es.filter (fun e => e.2.1 = m0.name)).map okEntry
          = suite.tests.map (fun t => (t.name, m0.name, t.judge m0 true)) := by
        rw [← filter_map_snd, ← hL,
          suitePairs_filter_byModel suite.tests models m0 hndm hm0]
      constructor
      · have h2 := congrArg List.length key
        rw [List.length_map, List.length_map] at h2
        exact h2
      · have h3 := congrArg (List.map (fun e => (e.1 : String))) key
        rw [List.map_map, List.map_map] at h3
        simpa [Function.comp, okEntry, ScoreMatrix.byModel] using h3

/-- The tutorial's suite of the three equality tests. -/
def equals_suite : TestSuite :=
  { name := "Equals test suite",
    tests := [equals_35_test, equals_36_test, equals_37_test] }

/-- The tutorial's list of three constant models. -/
def tutorial_models : List Model :=
  [const_model_36, const_model_35, const_model_37]

/-- The score matrix of the tutorial's three-by-three batch. -/
def tutorial_matrix : ScoreMatrix :=
  ((equals_suite.judge (.many tutorial_models)).toOption).getD ⟨[]⟩

/-- C1 witness: the tutorial's three-by-three batch instantiates the
matrix shape: nine entries, a per-test slice listing the models in
insertion order, and a per-model slice listing the tests in insertion
order. -/
theorem c1_matrix_shape_witness :
    tutorial_matrix.entries.length
      = equals_suite.tests.length * tutorial_models.length ∧
    (tutorial_matrix.byTest equals_35_test).map (fun e => e.2.1)
      = tutorial_models.map Model.name ∧
    (tutorial_matrix.byModel const_model_35).map (fun e => e.1)
      = equals_suite.tests.map Test.name := by
  have h := c1_matrix_shape equals_suite tutorial_models tutorial_matrix
    (by decide) (by decide) rfl
  exact ⟨h.1, (h.2.1 equals_35_test (List.Mem.head _)).2,
    (h.2.2 const_model_35 (List.Mem.tail _ (List.Mem.head _))).2⟩

/-- C10: judging a suite against a bare single model is the same as
judging it against the one-element list of that model, and on success
the matrix has exactly one entry per test, all belonging to that model
(a single row), listed in test-insertion order. -/
theorem c10_single_model_arg (suite : TestSuite) (m : Model) :
    suite.judge (.one m) = suite.judge (.many [m]) ∧
    (∀ M, suite.judge (.one m) = .ok M →
      M.entries.length = suite.tests.length ∧
      M.byModel m = M.entries ∧
      (M.byModel m).map (fun e => e.1) = suite.tests.map Test.name) := by
  refine ⟨rfl, ?_⟩
  intro M h
  unfold TestSuite.judge ModelsArg.toList at h
  cases hc : collectEntries (suitePairs suite.tests [m]) with
  | error e =>
    rw [hc] at h
    simp only [Except.map] at h
    cases h
  | ok es =>
    rw [hc] at h
    simp only [Except.map] at h
    cases h
    have hL := collectEntries_ok _ es hc
    have hsp : suitePairs suite.tests [m]
        = suite.tests.map (fun t => (t.name, m.name, t.judge m true)) := by
      unfold suitePairs
      rw [List.flatMap_cons, List.flatMap_nil, List.append_nil]
    rw [hsp] at hL
    have hfilter : es.filter (fun e => e.2.1 = m.name) = es := by
      rw [List.filter_eq_self]
      intro e he
      have hmem : okEntry e ∈ es.map okEntry := List.mem_map_of_mem okEntry he
      rw [← hL] at hmem
      obtain ⟨t, _, heq⟩ := List.mem_map.mp hmem
      exact decide_eq_true (congrArg (fun x => x.2.1) heq).symm
    refine ⟨?_, ?_, ?_⟩
    · have h1 := congrArg List.length hL
      rw [List.length_map, List.length_map] at h1
      exact h1.symm
    · unfold ScoreMatrix.byModel
      exact hfilter
    · have h3 := congrArg (List.map (fun e => (e.1 : String))) hL
      rw [List.map_map, List.map_map] at h3
      unfold ScoreMatrix.byModel
      rw [hfilter]
      simpa [Function.comp, okEntry] using h3.symm

/-- The score matrix of the tutorial's single-model suite judgment. -/
def single_matrix : ScoreMatrix :=
  ((equals_suite.judge (.one const_model_37)).toOption).getD ⟨[]⟩

/-- C10 witness: judging the tutorial suite against the bare constant
model equals judging it against the one-element list, and the matrix
has one entry per test, all in the model's row. -/
theorem c10_single_model_arg_witness :
    equals_suite.judge (.one const_model_37)
      = equals_suite.judge (.many [const_model_37]) ∧
    single_matrix.entries.length = equals_suite.tests.length ∧
    single_matrix.byModel const_model_37 = single_matrix.entries := by
  have h := c10_single_model_arg equals_suite const_model_37
  exact ⟨h.1, (h.2 single_matrix rfl).1, (h.2 single_matrix rfl).2.1⟩
